import Mathlib

/-!
Verification development for the rule-based "AI search readiness" analyzer
(src/lib/analyzer.ts, heavier JSDOM variant, and src/lib/claude-analyzer.ts).

The embedding models the parsed DOM by an abstract `Doc` structure holding
exactly the observations the check functions make on the document, the visible
text by a `TextView` (the raw string plus, for each regular-expression count
the source computes over the text, a field documented with that pattern), and
the raw HTML by an `HtmlView`.  Arithmetic done by JavaScript on numbers is
modelled exactly over ℕ/ℤ/ℚ: `Math.round(x)` is `⌊x + 1/2⌋`, encoded for
fractions n/d (d > 0) as `(2n + d) / (2d)` with flooring division.
-/

namespace AISearch

/-- JavaScript `String.prototype.includes`: substring containment. -/
def jsIncludes (hay pat : String) : Bool :=
  go hay.toList
where
  go : List Char → Bool
    | [] => pat.toList.isEmpty
    | c :: t => pat.toList.isPrefixOf (c :: t) || go t

/-- `String.prototype.toLowerCase` (ASCII range; the analyzer only
compares against ASCII patterns). -/
def jsLower (s : String) : String := ⟨s.toList.map Char.toLower⟩

/-- `String.prototype.trim`: strip leading and trailing whitespace. -/
def jsTrim (s : String) : String :=
  ⟨((s.toList.dropWhile Char.isWhitespace).reverse.dropWhile
      Char.isWhitespace).reverse⟩

/-- Helper for `jsSplit`: accumulate the current fragment (reversed). -/
def jsSplitAux (p : Char → Bool) : List Char → List Char → List String
  | [], acc => [⟨acc.reverse⟩]
  | c :: t, acc =>
    if p c then (⟨acc.reverse⟩ : String) :: jsSplitAux p t []
    else jsSplitAux p t (c :: acc)

/-- Split a string at every character satisfying `p` (matching the
behaviour of `String.split`: adjacent separators yield empty
fragments). -/
def jsSplit (s : String) (p : Char → Bool) : List String :=
  jsSplitAux p s.toList []

/-- `String.prototype.startsWith`. -/
def jsStartsWith (s pat : String) : Bool :=
  pat.toList.isPrefixOf s.toList

/-- JavaScript truthiness of a string: the empty string is falsy. -/
def jsTruthy (s : String) : Bool := s ≠ ""

/-- JavaScript `x || y` on two possibly-absent strings (`null`/`undefined`
and `""` are falsy), as in `(ogTitle || titleTag || '')`. -/
def jsOrElse (a : Option String) (d : String) : String :=
  match a with
  | some s => if s = "" then d else s
  | none => d

/-- `Math.round(num/den)` for natural `num` and `den > 0`:
`⌊num/den + 1/2⌋ = (2·num + den) / (2·den)` with natural division.
(For `den = 0` the JavaScript expression is `NaN`; that case is never
reached by the analyzer and this encoding returns 0 there.) -/
def jsRoundNat (num den : ℕ) : ℕ := (2 * num + den) / (2 * den)

/-- `Math.round(num/den)` for integer `num` and `den > 0`:
`⌊num/den + 1/2⌋ = (2·num + den) / (2·den)`, with `/` the flooring
(Euclidean) division of `ℤ` since `den > 0`. -/
def jsRoundInt (num den : ℤ) : ℤ := (2 * num + den) / (2 * den)

/-- JavaScript `text.split(/\s+/)` followed by `.filter(w => w.length > 0)`:
the number of whitespace-separated words.  (`Char.isWhitespace` stands for
the `\s` class.) -/
def jsWordCount (s : String) : ℕ :=
  ((jsSplit s fun c => c.isWhitespace).filter fun w => w.length > 0).length

-- ============================================
-- Types (src/lib/analyzer.ts, interface section)
-- ============================================

/-- `Check` from src/lib/analyzer.ts.  The free-text `details` field is not
modelled; no property below refers to it. -/
structure Check where
  id : String
  category : String
  name : String
  passed : Bool
  score : ℕ
  maxScore : ℕ
deriving Repr, DecidableEq

inductive Priority where
  | critical | high | medium | low
deriving Repr, DecidableEq

/-- `Recommendation` from src/lib/analyzer.ts.  The free-text fields
`description`, `impact`, `howToFix`, `codeExample` are not modelled; no
property below refers to them. -/
structure Recommendation where
  id : String
  category : String
  priority : Priority
  title : String
deriving Repr, DecidableEq

inductive Status where
  | good | warning | poor
deriving Repr, DecidableEq

structure CategoryScore where
  score : ℕ
  maxScore : ℕ
  percentage : ℕ
  status : Status
deriving Repr, DecidableEq

structure Categories where
  contentStructure : CategoryScore
  citationReadiness : CategoryScore
  technicalSeo : CategoryScore
  credibilitySignals : CategoryScore
  aiSpecificFactors : CategoryScore
deriving Repr, DecidableEq

-- ============================================
-- Abstract views of the parsed page
-- ============================================

/-- An `<a>` element: its `href` attribute (absent ↦ `none`) and its
text content. -/
structure Anchor where
  href : Option String
  text : String
deriving Repr, DecidableEq

/-- A `nav`/`ul`/`ol`/`div` element inspected by the table-of-contents
check: its text content and the number of descendant `a[href^="#"]`. -/
structure TocBlock where
  text : String
  hashLinkCount : ℕ
deriving Repr, DecidableEq

/-- Observations the check functions make on the JSDOM `document`.
Element lists are in document order. -/
structure Doc where
  /-- `h1`–`h6` elements in document order: (level, text content). -/
  headings : List (ℕ × String)
  /-- For each `<p>`, the length of `textContent.split(/\s+/)`
  (note: the source does not filter empty fragments here). -/
  paragraphSplitLens : List ℕ
  /-- Text contents of `script[type="application/ld+json"]` elements. -/
  ldJsonScripts : List String
  /-- The values captured by `/"@type"\s*:\s*"([^"]+)"/g` over the
  ld+json script contents. -/
  schemaTypes : List String
  /-- `document.querySelector('[itemscope]') !== null`. -/
  hasItemscope : Bool
  /-- Text content of the `<title>` element, `none` if absent. -/
  titleText : Option String
  /-- `content` attribute of `meta[name="description"]`, `none` if absent. -/
  metaDescription : Option String
  /-- `meta[property="og:title"]`: `none` if the element is absent,
  otherwise `some` of its `content` attribute (itself optional). -/
  ogTitle : Option (Option String)
  hasOgDescription : Bool
  hasOgImage : Bool
  hasCanonical : Bool
  hasViewport : Bool
  /-- Number of `<ul>` elements. -/
  ulCount : ℕ
  /-- Number of `<ol>` elements. -/
  olCount : ℕ
  /-- For each `<img>`, its `alt` attribute (`none` if absent). -/
  imageAlts : List (Option String)
  anchors : List Anchor
  tocBlocks : List TocBlock
  /-- `document.querySelectorAll('[aria-label], [aria-labelledby]').length > 0`. -/
  hasAriaLabels : Bool
  /-- `document.querySelectorAll('[role]').length > 0`. -/
  hasRoles : Bool
  /-- `document.documentElement.hasAttribute('lang')`. -/
  hasLang : Bool
  /-- `document.location?.hostname || ''`. -/
  locationHostname : String
  /-- The WHATWG URL parser: `new URL(href).hostname`, with a parse
  failure (the `catch` branch) represented by `none`. -/
  urlHostname : String → Option String

/-- The visible text handed to the checks, together with the match counts
of the regular expressions the source evaluates over it.  Each count field
is documented with the pattern it stands for. -/
structure TextView where
  raw : String
  /-- Matches of `/\?[\s\S]{10,200}[.!]/g` (question–answer pattern). -/
  qaPatternCount : ℕ
  /-- Total matches of the five definition patterns
  (`is defined as`, `refers to`, `means that`, `is a type of`,
  `\bis\b[^.]{5,50}that`, all `/gi`). -/
  definitionCount : ℕ
  /-- Total matches of the eight statistics patterns
  (percentages, `million|billion|thousand`, currency amounts,
  `increased/decreased by`, `\d+x faster|more|…`). -/
  statCount : ℕ
  /-- Number of 8–25-word sentences matching
  `/\b(is|are|was|were|has|have|can|will|should|must)\b/i` and not
  `/\b(I think|maybe|perhaps|probably|might)\b/i`. -/
  quotableCount : ℕ
  /-- Total matches of the seven evidence-citation patterns
  (`research shows`, `studies show|…`, `according to`, …). -/
  claimCount : ℕ
  /-- For each sentence (split on `[.!?]+`) whose trimmed length exceeds
  10: its (comma count, `split(/\s+/)` length). -/
  claritySentences : List (ℕ × ℕ)
  /-- Total matches of the six date patterns (years, month names, …). -/
  dateCount : ℕ
  /-- Total matches of the five citation patterns
  (`[\d+]`, `(source:`, `according to [A-Z]`, `<cite`, `reference`). -/
  citationCount : ℕ
  /-- `/\b(is|are|means|refers to|defined as)\b/i` over the first 200
  words of the text. -/
  upfrontAnswerPattern : Bool
  /-- `/^[A-Z][^.]+\s(is|are|refers|means)\s/` over the trimmed text. -/
  startsWithDefinition : Bool

/-- The raw HTML string plus the one non-literal author regex. -/
structure HtmlView where
  raw : String
  /-- `/by\s+[A-Z][a-z]+\s+[A-Z][a-z]+/` over the raw HTML. -/
  byNamePattern : Bool

-- ============================================
-- Check functions (src/lib/analyzer.ts:1452-2164)
-- ============================================

/-- The loop `for (i=1; …) if (levels[i] > levels[i-1]+1) properHierarchy=false`:
no heading level jumps by more than one. -/
def properHierarchy : List ℕ → Bool
  | [] => true
  | [_] => true
  | a :: b :: t => (decide (b ≤ a + 1)) && properHierarchy (b :: t)

/-- src/lib/analyzer.ts:1454 `checkHeadingHierarchy`. -/
def checkHeadingHierarchy (doc : Doc) : Check :=
  let levels := doc.headings.map Prod.fst
  let proper := properHierarchy levels
  { id := "heading-hierarchy"
    category := "contentStructure"
    name := "Heading Hierarchy"
    passed := proper && decide (levels.length ≥ 3)
    score := if proper ∧ levels.length ≥ 3 then 10
             else if levels.length ≥ 2 then 5 else 0
    maxScore := 10 }

/-- src/lib/analyzer.ts:1484 `checkHasH1`. -/
def checkHasH1 (doc : Doc) : Check :=
  let h1s := doc.headings.countP fun h => h.1 = 1
  { id := "single-h1"
    category := "contentStructure"
    name := "Single H1 Tag"
    passed := decide (h1s = 1)
    score := if h1s = 1 then 10 else 0
    maxScore := 10 }

/-- src/lib/analyzer.ts:1501 `checkSubheadings`. -/
def checkSubheadings (doc : Doc) : Check :=
  let h2s := doc.headings.countP fun h => h.1 = 2
  let h3s := doc.headings.countP fun h => h.1 = 3
  { id := "subheadings"
    category := "contentStructure"
    name := "Descriptive Subheadings"
    passed := decide (h2s ≥ 2 ∧ h3s ≥ 1)
    score := if h2s ≥ 2 ∧ h3s ≥ 1 then 10 else if h2s ≥ 1 then 5 else 0
    maxScore := 10 }

/-- src/lib/analyzer.ts:1517 `checkParagraphStructure`.
`ratio ≥ 0.5` (resp. `≥ 0.3`) over `good/total` is encoded exactly as
`2·good ≥ total` (resp. `10·good ≥ 3·total`) when `total > 0`, and the
`total = 0` case takes `ratio = 0`. -/
def checkParagraphStructure (doc : Doc) : Check :=
  let total := doc.paragraphSplitLens.length
  let good := doc.paragraphSplitLens.countP fun n => 20 ≤ n ∧ n ≤ 150
  { id := "paragraph-structure"
    category := "contentStructure"
    name := "Well-Structured Paragraphs"
    passed := decide (0 < total ∧ 2 * good ≥ total)
    score := if 0 < total ∧ 2 * good ≥ total then 8
             else if 0 < total ∧ 10 * good ≥ 3 * total then 4 else 0
    maxScore := 8 }

/-- `hasFAQHeading` of src/lib/analyzer.ts:1540:
`/faq|frequently asked|common questions/i` over the visible text. -/
def faqHeadingDetected (text : TextView) : Bool :=
  jsIncludes (jsLower text.raw) "faq"
    || jsIncludes (jsLower text.raw) "frequently asked"
    || jsIncludes (jsLower text.raw) "common questions"

/-- `hasSchemaFAQ` of src/lib/analyzer.ts:1542: the first ld+json script
(if any) contains the string `FAQPage`. -/
def faqSchemaDetected (doc : Doc) : Bool :=
  ((doc.ldJsonScripts.head?).map fun s => jsIncludes s "FAQPage").getD false

/-- src/lib/analyzer.ts:1539 `checkHasFAQSection`. -/
def checkHasFAQSection (doc : Doc) (text : TextView) : Check :=
  let hasFAQHeading := faqHeadingDetected text
  let hasQAPattern := decide (text.qaPatternCount ≥ 3)
  let hasSchemaFAQ := faqSchemaDetected doc
  let passed := hasFAQHeading || hasSchemaFAQ || hasQAPattern
  { id := "faq-section"
    category := "contentStructure"
    name := "FAQ Section"
    passed := passed
    score := if hasSchemaFAQ then 15 else if passed then 10 else 0
    maxScore := 15 }

/-- src/lib/analyzer.ts:1559 `checkHasDefinitions`. -/
def checkHasDefinitions (text : TextView) : Check :=
  let count := text.definitionCount
  { id := "definitions"
    category := "contentStructure"
    name := "Clear Definitions"
    passed := decide (count ≥ 2)
    score := if count ≥ 2 then 8 else if count ≥ 1 then 4 else 0
    maxScore := 8 }

/-- src/lib/analyzer.ts:1586 `checkContentLength`. -/
def checkContentLength (text : TextView) : Check :=
  let wordCount := jsWordCount text.raw
  { id := "content-length"
    category := "contentStructure"
    name := "Content Depth"
    passed := decide (wordCount ≥ 800)
    score := if wordCount ≥ 1500 then 10 else if wordCount ≥ 800 then 7
             else if wordCount ≥ 400 then 3 else 0
    maxScore := 10 }

/-- src/lib/analyzer.ts:1602 `checkHasLists`. -/
def checkHasLists (doc : Doc) : Check :=
  let totalLists := doc.ulCount + doc.olCount
  { id := "has-lists"
    category := "contentStructure"
    name := "Structured Lists"
    passed := decide (totalLists ≥ 2)
    score := if totalLists ≥ 2 then 6 else if totalLists ≥ 1 then 3 else 0
    maxScore := 6 }

/-- src/lib/analyzer.ts:1621 `checkHasStatistics`. -/
def checkHasStatistics (text : TextView) : Check :=
  let count := text.statCount
  { id := "statistics"
    category := "citationReadiness"
    name := "Specific Statistics"
    passed := decide (count ≥ 3)
    score := if count ≥ 3 then 15 else if count ≥ 1 then 7 else 0
    maxScore := 15 }

/-- src/lib/analyzer.ts:1651 `checkHasQuotableStatements`. -/
def checkHasQuotableStatements (text : TextView) : Check :=
  let quotable := text.quotableCount
  { id := "quotable-statements"
    category := "citationReadiness"
    name := "Quotable Statements"
    passed := decide (quotable ≥ 5)
    score := if quotable ≥ 5 then 15 else if quotable ≥ 2 then 7 else 0
    maxScore := 15 }

/-- src/lib/analyzer.ts:1678 `checkHasSpecificClaims`. -/
def checkHasSpecificClaims (text : TextView) : Check :=
  let count := text.claimCount
  { id := "specific-claims"
    category := "citationReadiness"
    name := "Evidence-Backed Claims"
    passed := decide (count ≥ 2)
    score := if count ≥ 2 then 12 else if count ≥ 1 then 6 else 0
    maxScore := 12 }

/-- src/lib/analyzer.ts:1707 `checkSentenceClarity`.
`ratio ≥ 0.7` (resp. `≥ 0.5`) over `clear/total` is encoded as
`10·clear ≥ 7·total` (resp. `2·clear ≥ total`) when `total > 0`. -/
def checkSentenceClarity (text : TextView) : Check :=
  let total := text.claritySentences.length
  let clear := text.claritySentences.countP fun s => s.1 ≤ 3 ∧ s.2 ≤ 35
  { id := "sentence-clarity"
    category := "citationReadiness"
    name := "Sentence Clarity"
    passed := decide (0 < total ∧ 10 * clear ≥ 7 * total)
    score := if 0 < total ∧ 10 * clear ≥ 7 * total then 8
             else if 0 < total ∧ 2 * clear ≥ total then 4 else 0
    maxScore := 8 }

/-- src/lib/analyzer.ts:1731 `checkHasDatesAndTimelines`. -/
def checkHasDatesAndTimelines (text : TextView) : Check :=
  let count := text.dateCount
  { id := "dates-timelines"
    category := "citationReadiness"
    name := "Dates & Timelines"
    passed := decide (count ≥ 2)
    score := if count ≥ 2 then 8 else if count ≥ 1 then 4 else 0
    maxScore := 8 }

/-- src/lib/analyzer.ts:1761 `checkHasSchemaMarkup`.  The `html` argument
of the source is unused there (types are read from the ld+json scripts). -/
def checkHasSchemaMarkup (doc : Doc) (_html : HtmlView) : Check :=
  let hasSchema := decide (doc.ldJsonScripts.length > 0) || doc.hasItemscope
  let hasRichSchema := doc.schemaTypes.any fun t =>
    t ∈ ["Article", "FAQPage", "HowTo", "Product", "Review", "Organization"]
  { id := "schema-markup"
    category := "technicalSeo"
    name := "Schema.org Markup"
    passed := hasSchema
    score := if hasRichSchema then 20 else if hasSchema then 12 else 0
    maxScore := 20 }

/-- src/lib/analyzer.ts:1792 `checkMetaTitle`. -/
def checkMetaTitle (doc : Doc) : Check :=
  let title := (doc.titleText.map jsTrim).getD ""
  let length := title.length
  { id := "meta-title"
    category := "technicalSeo"
    name := "Meta Title"
    passed := decide (30 ≤ length ∧ length ≤ 60)
    score := if 30 ≤ length ∧ length ≤ 60 then 10
             else if 0 < length then 5 else 0
    maxScore := 10 }

/-- src/lib/analyzer.ts:1810 `checkMetaDescription`. -/
def checkMetaDescription (doc : Doc) : Check :=
  let desc := (doc.metaDescription.map jsTrim).getD ""
  let length := desc.length
  { id := "meta-description"
    category := "technicalSeo"
    name := "Meta Description"
    passed := decide (120 ≤ length ∧ length ≤ 160)
    score := if 120 ≤ length ∧ length ≤ 160 then 10
             else if 0 < length then 5 else 0
    maxScore := 10 }

/-- src/lib/analyzer.ts:1828 `checkOpenGraphTags`. -/
def checkOpenGraphTags (doc : Doc) : Check :=
  let count := (if doc.ogTitle.isSome then 1 else 0)
    + (if doc.hasOgDescription then 1 else 0)
    + (if doc.hasOgImage then 1 else 0)
  { id := "open-graph"
    category := "technicalSeo"
    name := "Open Graph Tags"
    passed := decide (count = 3)
    score := if count = 3 then 8 else if count ≥ 1 then 4 else 0
    maxScore := 8 }

/-- src/lib/analyzer.ts:1847 `checkCanonicalUrl`. -/
def checkCanonicalUrl (doc : Doc) : Check :=
  { id := "canonical-url"
    category := "technicalSeo"
    name := "Canonical URL"
    passed := doc.hasCanonical
    score := if doc.hasCanonical then 6 else 0
    maxScore := 6 }

/-- src/lib/analyzer.ts:1862 `checkPageSpeed` (`loadTime` in ms). -/
def checkPageSpeed (loadTime : ℕ) : Check :=
  { id := "page-speed"
    category := "technicalSeo"
    name := "Page Load Speed"
    passed := decide (loadTime < 3000)
    score := if loadTime < 1500 then 10 else if loadTime < 3000 then 7
             else if loadTime < 5000 then 3 else 0
    maxScore := 10 }

/-- src/lib/analyzer.ts:1877 `checkMobileViewport`. -/
def checkMobileViewport (doc : Doc) : Check :=
  { id := "mobile-viewport"
    category := "technicalSeo"
    name := "Mobile Viewport"
    passed := doc.hasViewport
    score := if doc.hasViewport then 6 else 0
    maxScore := 6 }

/-- src/lib/analyzer.ts:1892 `checkHasAltText`.
`ratio` is `withAlt/total` when `total > 0` and `1` otherwise;
`ratio ≥ 0.8` is encoded as `5·withAlt ≥ 4·total`, `ratio ≥ 0.5` as
`2·withAlt ≥ total`. -/
def checkHasAltText (doc : Doc) : Check :=
  let total := doc.imageAlts.length
  let withAlt := doc.imageAlts.countP fun a =>
    match a with
    | some s => jsTrim s ≠ ""
    | none => False
  { id := "image-alt-text"
    category := "technicalSeo"
    name := "Image Alt Text"
    passed := decide (total = 0 ∨ 5 * withAlt ≥ 4 * total)
    score := if total = 0 ∨ 5 * withAlt ≥ 4 * total then 6
             else if 2 * withAlt ≥ total then 3 else 0
    maxScore := 6 }

/-- src/lib/analyzer.ts:1917 `checkHasAuthorInfo`.  Of the five author
patterns, `/author/i`, `/written by/i`, `/"author"/i`, `/rel="author"/i`
are all implied by or expressed as case-insensitive substring tests in
which `/author/i` subsumes the last two; the remaining
`/by\s+[A-Z][a-z]+\s+[A-Z][a-z]+/` is `html.byNamePattern`. -/
def checkHasAuthorInfo (doc : Doc) (html : HtmlView) : Check :=
  let hasAuthor := jsIncludes (jsLower html.raw) "author"
    || jsIncludes (jsLower html.raw) "written by"
    || html.byNamePattern
  let hasAuthorSchema := jsIncludes html.raw "\"author\""
    && jsIncludes html.raw "@type"
  let _ := doc
  { id := "author-info"
    category := "credibilitySignals"
    name := "Author Information"
    passed := hasAuthor
    score := if hasAuthorSchema then 15 else if hasAuthor then 10 else 0
    maxScore := 15 }

/-- src/lib/analyzer.ts:1942 `checkHasPublishDate`.  All five date
patterns are case-insensitive literals (`published`, `datePublished`,
`article:published_time`, `<time`, `datetime=`), the first subsuming the
second. -/
def checkHasPublishDate (doc : Doc) (html : HtmlView) : Check :=
  let hasDate := jsIncludes (jsLower html.raw) "published"
    || jsIncludes (jsLower html.raw) "article:published_time"
    || jsIncludes (jsLower html.raw) "<time"
    || jsIncludes (jsLower html.raw) "datetime="
  let hasDateSchema := jsIncludes html.raw "datePublished"
    || jsIncludes html.raw "dateModified"
  let _ := doc
  { id := "publish-date"
    category := "credibilitySignals"
    name := "Publish/Update Date"
    passed := hasDate
    score := if hasDateSchema then 12 else if hasDate then 8 else 0
    maxScore := 12 }

/-- src/lib/analyzer.ts:1967 `checkHasAboutSection`:
`/about|who-we-are|our-team|company/i` over `href + text` of each anchor. -/
def checkHasAboutSection (doc : Doc) : Check :=
  let hasAboutLink := doc.anchors.any fun a =>
    let s := jsLower ((a.href.getD "") ++ a.text)
    jsIncludes s "about" || jsIncludes s "who-we-are"
      || jsIncludes s "our-team" || jsIncludes s "company"
  { id := "about-section"
    category := "credibilitySignals"
    name := "About/Company Info"
    passed := hasAboutLink
    score := if hasAboutLink then 8 else 0
    maxScore := 8 }

/-- src/lib/analyzer.ts:1988 `checkHasSourceCitations` (the five citation
patterns are counted over the visible text). -/
def checkHasSourceCitations (doc : Doc) (text : TextView) : Check :=
  let count := text.citationCount
  let _ := doc
  { id := "source-citations"
    category := "credibilitySignals"
    name := "Source Citations"
    passed := decide (count ≥ 2)
    score := if count ≥ 2 then 12 else if count ≥ 1 then 6 else 0
    maxScore := 12 }

/-- Whether one anchor is counted as external by
src/lib/analyzer.ts:2019-2027: the `href` parses (`new URL` does not
throw, i.e. `urlHostname` is `some`), its hostname differs from the
current domain and does not contain it as a substring.  The `catch`
branch of the source returns `false`. -/
def isExternalAnchor (doc : Doc) (a : Anchor) : Bool :=
  let href := a.href.getD ""
  match doc.urlHostname href with
  | some linkDomain =>
      decide (linkDomain ≠ doc.locationHostname)
        && !(jsIncludes linkDomain doc.locationHostname)
  | none => false

/-- The number of anchors selected by `a[href^="http"]` and counted as
external (src/lib/analyzer.ts:2016-2027). -/
def externalLinkCount (doc : Doc) : ℕ :=
  ((doc.anchors.filter fun a => jsStartsWith (a.href.getD "") "http").filter
    fun a => isExternalAnchor doc a).length

/-- src/lib/analyzer.ts:2015 `checkHasExternalLinks`. -/
def checkHasExternalLinks (doc : Doc) : Check :=
  let n := externalLinkCount doc
  { id := "external-links"
    category := "credibilitySignals"
    name := "External References"
    passed := decide (n ≥ 2)
    score := if n ≥ 2 then 8 else if n ≥ 1 then 4 else 0
    maxScore := 8 }

/-- src/lib/analyzer.ts:2044 `checkAnswersQuestionUpfront`. -/
def checkAnswersQuestionUpfront (text : TextView) : Check :=
  let hasDirectAnswer := text.upfrontAnswerPattern
  let startsDef := text.startsWithDefinition
  { id := "upfront-answer"
    category := "aiSpecificFactors"
    name := "Answers Question Upfront"
    passed := hasDirectAnswer
    score := if startsDef then 15 else if hasDirectAnswer then 10 else 0
    maxScore := 15 }

/-- src/lib/analyzer.ts:2072 `checkHasTableOfContents`: some
`nav`/`ul`/`ol`/`div` element matches a ToC phrase
(`table of contents`, `in this article`, `jump to section`, all `/i`)
or holds at least 4 same-page anchor links. -/
def checkHasTableOfContents (doc : Doc) : Check :=
  let hasToc := doc.tocBlocks.any fun el =>
    jsIncludes (jsLower el.text) "table of contents"
      || jsIncludes (jsLower el.text) "in this article"
      || jsIncludes (jsLower el.text) "jump to section"
      || decide (el.hashLinkCount ≥ 4)
  { id := "table-of-contents"
    category := "aiSpecificFactors"
    name := "Table of Contents"
    passed := hasToc
    score := if hasToc then 10 else 0
    maxScore := 10 }

/-- src/lib/analyzer.ts:2098 `checkHasSummarySection`: the six summary
phrases over the visible text (`/tl;?dr/i` is `tldr` or `tl;dr`). -/
def checkHasSummarySection (doc : Doc) (text : TextView) : Check :=
  let lower := jsLower text.raw
  let hasSummary := jsIncludes lower "key takeaways"
    || jsIncludes lower "summary"
    || jsIncludes lower "in brief"
    || jsIncludes lower "tldr" || jsIncludes lower "tl;dr"
    || jsIncludes lower "quick summary"
    || jsIncludes lower "bottom line"
  let _ := doc
  { id := "summary-section"
    category := "aiSpecificFactors"
    name := "Summary/Key Takeaways"
    passed := hasSummary
    score := if hasSummary then 12 else 0
    maxScore := 12 }

/-- src/lib/analyzer.ts:2123 `checkNoPaywallDetected`: the five paywall
phrases over the raw HTML (`/subscribe to (read|continue)/i` and
`/member(s)? only/i` expanded to their alternatives). -/
def checkNoPaywallDetected (doc : Doc) (html : HtmlView) : Check :=
  let lower := jsLower html.raw
  let hasPaywall := jsIncludes lower "paywall"
    || jsIncludes lower "subscribe to read"
    || jsIncludes lower "subscribe to continue"
    || jsIncludes lower "premium content"
    || jsIncludes lower "member only" || jsIncludes lower "members only"
    || jsIncludes lower "sign up to read"
  let _ := doc
  { id := "no-paywall"
    category := "aiSpecificFactors"
    name := "Content Accessibility"
    passed := !hasPaywall
    score := if hasPaywall then 0 else 10
    maxScore := 10 }

/-- src/lib/analyzer.ts:2147 `checkContentAccessibility`. -/
def checkContentAccessibility (doc : Doc) : Check :=
  let score := (if doc.hasAriaLabels then 3 else 0)
    + (if doc.hasRoles then 3 else 0)
    + (if doc.hasLang then 4 else 0)
  { id := "accessibility"
    category := "aiSpecificFactors"
    name := "Accessibility Features"
    passed := decide (score ≥ 7)
    score := score
    maxScore := 10 }

/-- src/lib/analyzer.ts:1395 `runAllChecks`: the full battery, in source
order.  The source contains no error handling here: each check is invoked
and its result pushed directly. -/
def runAllChecks (doc : Doc) (html : HtmlView) (text : TextView)
    (loadTime : ℕ) : List Check :=
  [ checkHeadingHierarchy doc,
    checkHasH1 doc,
    checkSubheadings doc,
    checkParagraphStructure doc,
    checkHasFAQSection doc text,
    checkHasDefinitions text,
    checkContentLength text,
    checkHasLists doc,
    checkHasStatistics text,
    checkHasQuotableStatements text,
    checkHasSpecificClaims text,
    checkSentenceClarity text,
    checkHasDatesAndTimelines text,
    checkHasSchemaMarkup doc html,
    checkMetaTitle doc,
    checkMetaDescription doc,
    checkOpenGraphTags doc,
    checkCanonicalUrl doc,
    checkPageSpeed loadTime,
    checkMobileViewport doc,
    checkHasAltText doc,
    checkHasAuthorInfo doc html,
    checkHasPublishDate doc html,
    checkHasAboutSection doc,
    checkHasSourceCitations doc text,
    checkHasExternalLinks doc,
    checkAnswersQuestionUpfront text,
    checkHasTableOfContents doc,
    checkHasSummarySection doc text,
    checkNoPaywallDetected doc html,
    checkContentAccessibility doc ]

/-- The exception semantics of the statement sequence in `runAllChecks`
(src/lib/analyzer.ts:1395-1450): given the outcome of each check call
(`Except.error` when that check throws), the battery aborts at the first
exception — there is no `try`/`catch` around any check. -/
def runChecksSeq (results : List (Except String Check)) :
    Except String (List Check) :=
  results.mapM id

-- ============================================
-- Scoring aggregation (src/lib/analyzer.ts:2182-2214, 890-892)
-- ============================================

/-- The initial `categories` record of `calculateCategoryScores`
(src/lib/analyzer.ts:2183-2189). -/
def initCategories : Categories :=
  let z : CategoryScore := { score := 0, maxScore := 0, percentage := 0, status := .good }
  { contentStructure := z, citationReadiness := z, technicalSeo := z
    credibilitySignals := z, aiSpecificFactors := z }

/-- One iteration of the accumulation loop
(src/lib/analyzer.ts:2191-2197): a check whose `category` string is one of
the five keys adds its `score`/`maxScore` there; any other category leaves
the record unchanged (`if (categories[cat])`). -/
def addToCategory (cats : Categories) (c : Check) : Categories :=
  let bump := fun (cs : CategoryScore) =>
    { cs with score := cs.score + c.score, maxScore := cs.maxScore + c.maxScore }
  if c.category = "contentStructure" then
    { cats with contentStructure := bump cats.contentStructure }
  else if c.category = "citationReadiness" then
    { cats with citationReadiness := bump cats.citationReadiness }
  else if c.category = "technicalSeo" then
    { cats with technicalSeo := bump cats.technicalSeo }
  else if c.category = "credibilitySignals" then
    { cats with credibilitySignals := bump cats.credibilitySignals }
  else if c.category = "aiSpecificFactors" then
    { cats with aiSpecificFactors := bump cats.aiSpecificFactors }
  else cats

/-- The finalization loop (src/lib/analyzer.ts:2199-2203):
`percentage = maxScore > 0 ? Math.round(score/maxScore*100) : 0` and the
status thresholds (≥70 good, ≥40 warning, else poor). -/
def finalizeCategory (cs : CategoryScore) : CategoryScore :=
  let percentage := if 0 < cs.maxScore then jsRoundNat (100 * cs.score) cs.maxScore else 0
  { cs with
    percentage := percentage
    status := if percentage ≥ 70 then .good
              else if percentage ≥ 40 then .warning else .poor }

/-- src/lib/analyzer.ts:2182 `calculateCategoryScores`. -/
def calculateCategoryScores (checks : List Check) : Categories :=
  let cats := checks.foldl addToCategory initCategories
  { contentStructure := finalizeCategory cats.contentStructure
    citationReadiness := finalizeCategory cats.citationReadiness
    technicalSeo := finalizeCategory cats.technicalSeo
    credibilitySignals := finalizeCategory cats.credibilitySignals
    aiSpecificFactors := finalizeCategory cats.aiSpecificFactors }

/-- The five category scores in the fixed key order of the record
(`Object.values(categories)`). -/
def categoryList (cats : Categories) : List CategoryScore :=
  [cats.contentStructure, cats.citationReadiness, cats.technicalSeo,
   cats.credibilitySignals, cats.aiSpecificFactors]

/-- src/lib/analyzer.ts:890-892: the overall rule-based score,
`Math.round((totalScore / maxScore) * 100)` over the category sums. -/
def overallRuleScore (cats : Categories) : ℕ :=
  let totalScore := ((categoryList cats).map CategoryScore.score).sum
  let maxScore := ((categoryList cats).map CategoryScore.maxScore).sum
  jsRoundNat (100 * totalScore) maxScore

inductive Grade where
  | A | B | C | D | F
deriving Repr, DecidableEq

/-- src/lib/analyzer.ts:2208 `scoreToGrade`. -/
def scoreToGrade (score : ℤ) : Grade :=
  if score ≥ 90 then .A
  else if score ≥ 80 then .B
  else if score ≥ 70 then .C
  else if score ≥ 60 then .D
  else .F

-- ============================================
-- Recommendations (src/lib/analyzer.ts:2216-2410)
-- ============================================

/-- Numeric order of priorities, `{ critical: 0, high: 1, medium: 2, low: 3 }`
(src/lib/analyzer.ts:2229). -/
def priorityOrder : Priority → ℕ
  | .critical => 0
  | .high => 1
  | .medium => 2
  | .low => 3

/-- src/lib/analyzer.ts:2235 `checkToRecommendation`: the static template
table keyed by check id (13 entries); ids without a template yield
nothing. -/
def checkToRecommendation (c : Check) : Option Recommendation :=
  if c.id = "schema-markup" then
    some ⟨c.id, "Technical SEO", .critical, "Add Schema.org Structured Data"⟩
  else if c.id = "faq-section" then
    some ⟨c.id, "Content Structure", .high, "Add an FAQ Section"⟩
  else if c.id = "statistics" then
    some ⟨c.id, "Citation Readiness", .high, "Add Specific Statistics and Numbers"⟩
  else if c.id = "quotable-statements" then
    some ⟨c.id, "Citation Readiness", .high, "Create More Quotable Statements"⟩
  else if c.id = "author-info" then
    some ⟨c.id, "Credibility", .high, "Add Author Information"⟩
  else if c.id = "meta-description" then
    some ⟨c.id, "Technical SEO", .medium, "Improve Meta Description"⟩
  else if c.id = "upfront-answer" then
    some ⟨c.id, "AI Optimization", .high, "Answer the Main Question Upfront"⟩
  else if c.id = "summary-section" then
    some ⟨c.id, "AI Optimization", .medium, "Add a Key Takeaways Section"⟩
  else if c.id = "publish-date" then
    some ⟨c.id, "Credibility", .medium, "Add Publication Date"⟩
  else if c.id = "heading-hierarchy" then
    some ⟨c.id, "Content Structure", .medium, "Fix Heading Hierarchy"⟩
  else if c.id = "single-h1" then
    some ⟨c.id, "Content Structure", .medium, "Use a Single H1 Tag"⟩
  else if c.id = "content-length" then
    some ⟨c.id, "Content Structure", .medium, "Expand Content Depth"⟩
  else if c.id = "page-speed" then
    some ⟨c.id, "Technical SEO", .low, "Improve Page Speed"⟩
  else none

/-- The comparator `priorityOrder[a.priority] - priorityOrder[b.priority]`
as a boolean `≤`. -/
def recLE (a b : Recommendation) : Bool :=
  priorityOrder a.priority ≤ priorityOrder b.priority

/-- The unsorted recommendation list built by the loop in
src/lib/analyzer.ts:2219-2226: skip passed checks, look up the template,
keep hits in check order. -/
def recsOfChecks (checks : List Check) : List Recommendation :=
  checks.filterMap fun c => if c.passed then none else checkToRecommendation c

/-- src/lib/analyzer.ts:2216 `generateRecommendations`.
`Array.prototype.sort` is stable (ECMAScript 2019); a stable sort by the
comparator `priorityOrder[a] - priorityOrder[b]` is `mergeSort` with
`recLE`. -/
def generateRecommendations (checks : List Check) : List Recommendation :=
  (recsOfChecks checks).mergeSort recLE

-- ============================================
-- Title extraction (src/lib/analyzer.ts:2170-2174)
-- ============================================

/-- src/lib/analyzer.ts:2170 `extractTitle`:
`(ogTitle || titleTag || '').trim()`, where `ogTitle` is the `content`
attribute of `meta[property="og:title"]` and `titleTag` the text of the
`<title>` element. -/
def extractTitle (doc : Doc) : String :=
  let ogTitle : Option String := doc.ogTitle.bind fun c => c
  let titleTag : Option String := doc.titleText
  jsTrim (jsOrElse ogTitle (jsOrElse titleTag ""))

/-- Modelled from the spec (§4.1): "Title extraction precedence:
Open-Graph title meta tag, else `<title>` element, else first `<h1>`" —
the third, `<h1>` fallback is absent from `extractTitle` in the source. -/
def extractTitleSpec (doc : Doc) : String :=
  match doc.ogTitle.bind fun c => c with
  | some og => og
  | none =>
    match doc.titleText with
    | some t => t
    | none => (((doc.headings.filter fun h => h.1 = 1).map Prod.snd).head?).getD ""

-- ============================================
-- Readability scorer (src/lib/analyzer.ts:969-1008)
-- ============================================

/-- `text.split(/[.!?]+/).filter(s => s.trim().length > 0)`.  (A per-char
split yields extra empty fragments where the regex collapses delimiter
runs; the filter removes exactly those, so the sentence lists agree.) -/
def readSentences (text : String) : List String :=
  (jsSplit text fun c => c = '.' || c = '!' || c = '?').filter
    fun s => (jsTrim s).length > 0

/-- `text.split(/\s+/).filter(w => w.length > 0)` (same remark on
delimiter runs; `Char.isWhitespace` stands for `\s`). -/
def readWords (text : String) : List String :=
  (jsSplit text fun c => c.isWhitespace).filter fun w => w.length > 0

def isVowelY (c : Char) : Bool := c ∈ ['a', 'e', 'i', 'o', 'u', 'y']

def isLaeiouy (c : Char) : Bool := c ∈ ['l', 'a', 'e', 'i', 'o', 'u', 'y']

/-- Helper for `countVowelRuns`: `pending` records whether the current
match already holds one vowel and may greedily absorb a second. -/
def countVowelRunsAux : List Char → Bool → ℕ
  | [], _ => 0
  | c :: rest, pending =>
    if isVowelY c then
      if pending then countVowelRunsAux rest false
      else 1 + countVowelRunsAux rest true
    else countVowelRunsAux rest false

/-- The global match count of `/[aeiouy]{1,2}/g`: scanning left to right,
each match greedily takes two adjacent vowels when it can, else one. -/
def countVowelRuns (l : List Char) : ℕ := countVowelRunsAux l false

/-- `word.replace(/(?:[^laeiouy]es|ed|[^laeiouy]e)$/, '')`: the leftmost
(hence longest-reaching) match is the 3-character `Xes` suffix when its
`X` is outside `laeiouy`; otherwise the 2-character `ed` or `Xe` suffix.
The matched characters (including `X`) are removed. -/
def stripSilentEnding (word : List Char) : List Char :=
  match word.reverse with
  | 's' :: 'e' :: c :: rest => if isLaeiouy c then word else rest.reverse
  | 'd' :: 'e' :: rest => rest.reverse
  | 'e' :: c :: rest => if isLaeiouy c then word else rest.reverse
  | _ => word

/-- src/lib/analyzer.ts:999 `countSyllables`. -/
def countSyllables (w : String) : ℕ :=
  let word := (w.toList.map Char.toLower).filter fun c => 'a' ≤ c && c ≤ 'z'
  if word.length ≤ 3 then 1
  else
    let word := stripSilentEnding word
    let word := match word with
      | 'y' :: rest => rest
      | _ => word
    let n := countVowelRuns word
    if n = 0 then 1 else n

/-- Numerator of the Flesch Reading Ease value
`206.835 − 1.015·(words/sentences) − 84.6·(syllables/words)` written over
the common denominator `1000·sentences·words`. -/
def fleschNum (sentenceCount wordCount syllableCount : ℕ) : ℤ :=
  206835 * sentenceCount * wordCount - 1015 * wordCount * wordCount
    - 84600 * syllableCount * sentenceCount

def fleschDen (sentenceCount wordCount : ℕ) : ℤ :=
  1000 * sentenceCount * wordCount

def syllableTotal (words : List String) : ℕ :=
  words.foldl (fun acc w => acc + countSyllables w) 0

/-- src/lib/analyzer.ts:969 `calculateReadability` (the active, heavier
variant; the earlier cheerio variant at lines 247-270 uses sentinel 50
and a four-label scale instead). -/
def calculateReadability (text : String) : ℕ × String :=
  let sentences := readSentences text
  let words := readWords text
  let syllables := syllableTotal words
  if sentences.length = 0 ∨ words.length = 0 then (0, "N/A")
  else
    let score : ℕ := (max 0 (min 100 (jsRoundInt
      (fleschNum sentences.length words.length syllables)
      (fleschDen sentences.length words.length)))).toNat
    let grade := if score ≥ 90 then "5th Grade (Very Easy)"
      else if score ≥ 80 then "6th Grade (Easy)"
      else if score ≥ 70 then "7th Grade (Fairly Easy)"
      else if score ≥ 60 then "8-9th Grade (Standard)"
      else if score ≥ 50 then "10-12th Grade (Fairly Hard)"
      else if score ≥ 30 then "College (Hard)"
      else "Graduate (Very Hard)"
    (score, grade)

-- ============================================
-- External narrative analyzer (src/lib/claude-analyzer.ts)
-- ============================================

inductive Confidence where
  | high | medium | low
deriving Repr, DecidableEq

structure SampleCitation where
  userQuery : String
  aiResponse : String
  citedText : String
  confidence : Confidence
deriving Repr, DecidableEq

structure ContentUnderstanding where
  mainTopic : String
  targetAudience : String
  contentType : String
  keyMessages : List String
deriving Repr, DecidableEq

structure CitationSimulation where
  likelyQueries : List String
  sampleCitations : List SampleCitation
deriving Repr, DecidableEq

/-- The source value `'structure'` is rendered `structural` here
(`structure` is a keyword). -/
inductive ImprovementCategory where
  | content | structural | credibility | technical
deriving Repr, DecidableEq

structure Improvement where
  category : ImprovementCategory
  issue : String
  recommendation : String
  priority : Priority
  exampleFix : Option String
deriving Repr, DecidableEq

structure MissingContentItem where
  topic : String
  reason : String
  suggestedContent : String
deriving Repr, DecidableEq

structure RewriteSuggestion where
  original : String
  improved : String
  reason : String
deriving Repr, DecidableEq

structure CompetitiveAnalysis where
  strengths : List String
  weaknesses : List String
  opportunities : List String
deriving Repr, DecidableEq

/-- `AIAnalysis` from src/lib/claude-analyzer.ts.  `aiReadinessScore` is a
JSON number, modelled by ℤ. -/
structure AIAnalysis where
  summary : String
  aiReadinessScore : ℤ
  contentUnderstanding : ContentUnderstanding
  citationSimulation : CitationSimulation
  improvements : List Improvement
  missingContent : List MissingContentItem
  rewriteSuggestions : List RewriteSuggestion
  competitiveAnalysis : CompetitiveAnalysis
deriving Repr, DecidableEq

/-- src/lib/claude-analyzer.ts:55 `createFallbackAnalysis`. -/
def createFallbackAnalysis (title : String) (errorMessage : Option String) :
    AIAnalysis :=
  { summary := jsOrElse errorMessage "AI analysis not available."
    aiReadinessScore := 50
    contentUnderstanding :=
      { mainTopic := jsOrElse (some title) "Unknown"
        targetAudience := "General audience"
        contentType := "webpage"
        keyMessages := ["Enable AI analysis for detailed insights"] }
    citationSimulation := { likelyQueries := [], sampleCitations := [] }
    improvements := []
    missingContent := []
    rewriteSuggestions := []
    competitiveAnalysis :=
      { strengths := [], weaknesses := [], opportunities := [] } }

/-- Outcome of the HTTP call inside `analyzeWithClaude`: `ok` when the
request succeeds and the response parses into an `AIAnalysis`; `fail msg`
when anything inside the `try` throws (network error, non-2xx status,
missing text block, `JSON.parse` failure), with `msg` the error
message. -/
inductive CallOutcome where
  | ok (a : AIAnalysis)
  | fail (msg : String)
deriving Repr, DecidableEq

/-- src/lib/claude-analyzer.ts:80 `analyzeWithClaude`, as a function of
the credential (`process.env.ANTHROPIC_API_KEY`, absent or empty =
falsy) and the call outcome.  Every failure path returns
`createFallbackAnalysis` — this function never throws. -/
def analyzeWithClaude (apiKey : Option String) (title : String)
    (outcome : CallOutcome) : AIAnalysis :=
  if jsOrElse apiKey "" = "" then
    createFallbackAnalysis title
      (some "Configure ANTHROPIC_API_KEY for AI-powered analysis.")
  else
    match outcome with
    | .ok a => a
    | .fail msg =>
        createFallbackAnalysis title (some ("AI analysis failed: " ++ msg))

/-- `Math.round(ai*0.6 + score*0.4)` (src/lib/analyzer.ts:929), exactly
`(6·ai + 4·score)/10` rounded. -/
def blendScores (ai ruleScore : ℤ) : ℤ :=
  jsRoundInt (6 * ai + 4 * ruleScore) 10

/-- The narrative-analysis step of `analyzeUrl`
(src/lib/analyzer.ts:909-940): when `includeAI` and the credential is
truthy, call `analyzeWithClaude` (which never throws, so the enclosing
`try`/`catch` never fires) and, when the returned `aiReadinessScore` is
truthy (non-zero), blend it 60/40 with the rule-based score.  Returns the
final score and the `aiAnalysis` field of the result. -/
def aiBlendStep (includeAI : Bool) (apiKey : Option String) (title : String)
    (ruleScore : ℤ) (outcome : CallOutcome) : ℤ × Option AIAnalysis :=
  if includeAI && jsTruthy (jsOrElse apiKey "") then
    let a := analyzeWithClaude apiKey title outcome
    let score := if a.aiReadinessScore ≠ 0
      then blendScores a.aiReadinessScore ruleScore else ruleScore
    (score, some a)
  else (ruleScore, none)

-- ============================================
-- Concrete example inputs
-- ============================================

/-- An empty text view: no visible text, hence no pattern matches. -/
def emptyTextView : TextView :=
  { raw := "", qaPatternCount := 0, definitionCount := 0, statCount := 0
    quotableCount := 0, claimCount := 0, claritySentences := []
    dateCount := 0, citationCount := 0, upfrontAnswerPattern := false
    startsWithDefinition := false }

def emptyHtmlView : HtmlView := { raw := "", byNamePattern := false }

/-- A URL parser that recognizes one absolute URL and rejects (throws on)
everything else. -/
def exampleHostParser : String → Option String := fun s =>
  if s = "https://other.example/source" then some "other.example" else none

/-- A minimal document: nothing present. -/
def emptyDoc : Doc :=
  { headings := [], paragraphSplitLens := [], ldJsonScripts := []
    schemaTypes := [], hasItemscope := false, titleText := none
    metaDescription := none, ogTitle := none, hasOgDescription := false
    hasOgImage := false, hasCanonical := false, hasViewport := false
    ulCount := 0, olCount := 0, imageAlts := [], anchors := []
    tocBlocks := [], hasAriaLabels := false, hasRoles := false
    hasLang := false, locationHostname := "mysite.example"
    urlHostname := exampleHostParser }

/-- A document whose only title-relevant content is one `<h1>`. -/
def docWithOnlyH1 : Doc := { emptyDoc with headings := [(1, "Hello World")] }

/-- A text view containing just the keyword `FAQ` (no FAQPage schema,
no question-answer patterns). -/
def faqKeywordText : TextView := { emptyTextView with raw := "FAQ" }

/-- A document with two anchors: one with an unparseable `href`
(`new URL` throws) and one genuine external link. -/
def docWithBadHref : Doc :=
  { emptyDoc with anchors :=
      [ { href := some "http//:broken url", text := "broken" },
        { href := some "https://other.example/source", text := "source" } ] }

/-- The outcome list of the example battery when no check throws. -/
def exampleBatteryOutcomes : List (Except String Check) :=
  (runAllChecks emptyDoc emptyHtmlView emptyTextView 100).map Except.ok

/-- The same battery with the fifth check (the FAQ check) throwing, as in
the partial-failure scenario of spec §8. -/
def instrumentedOutcomes : List (Except String Check) :=
  exampleBatteryOutcomes.set 4 (.error "check threw on pathological input")

/-- A document carrying an Open-Graph title (with surrounding
whitespace), a `<title>` element and an `<h1>`. -/
def docWithOgTitle : Doc :=
  { emptyDoc with
    ogTitle := some (some "  OG Title  ")
    titleText := some "Title Tag"
    headings := [(1, "Heading One")] }

/-- A document with a `<title>` element and an `<h1>` but no Open-Graph
title. -/
def docWithTitleTag : Doc :=
  { emptyDoc with
    titleText := some "  Title Tag  "
    headings := [(1, "Heading One")] }

/-- A check whose category string is not one of the five enumerated
category keys. -/
def strayCheck : Check :=
  { id := "stray", category := "somethingElse", name := "Stray"
    passed := false, score := 3, maxScore := 5 }

/-- Failing checks with priorities [medium, critical, high, critical]
(only `passed` and `id` matter to `generateRecommendations`). -/
def examplePriorityChecks : List Check :=
  [ { id := "meta-description", category := "technicalSeo"
      name := "Meta Description", passed := false, score := 0, maxScore := 10 },
    { id := "schema-markup", category := "technicalSeo"
      name := "Schema.org Markup", passed := false, score := 0, maxScore := 20 },
    { id := "faq-section", category := "contentStructure"
      name := "FAQ Section", passed := false, score := 0, maxScore := 15 },
    { id := "schema-markup", category := "technicalSeo"
      name := "Schema.org Markup", passed := false, score := 0, maxScore := 20 } ]

-- ============================================
-- Helper lemmas
-- ============================================

theorem jsRoundNat_le_100 {n m : ℕ} (hnm : n ≤ m) (hm : 0 < m) :
    jsRoundNat (100 * n) m ≤ 100 := by
  unfold jsRoundNat
  have h1 : 2 * (100 * n) + m < 101 * (2 * m) := by omega
  have := (Nat.div_lt_iff_lt_mul (by omega : 0 < 2 * m)).2 h1
  omega

/-- Every check of the battery satisfies `score ≤ maxScore` and
`0 < maxScore`. -/
theorem batteryCheck_bounds (doc : Doc) (html : HtmlView) (text : TextView)
    (lt : ℕ) (c : Check) (hc : c ∈ runAllChecks doc html text lt) :
    c.score ≤ c.maxScore ∧ 0 < c.maxScore := by
  simp only [runAllChecks, List.mem_cons, List.not_mem_nil, or_false] at hc
  rcases hc with h | h | h | h | h | h | h | h | h | h | h | h | h | h | h | h | h | h | h | h | h | h | h | h | h | h | h | h | h | h | h
  all_goals subst h
  all_goals refine ⟨?_, ?_⟩
  all_goals first
    | exact (by decide : (0:ℕ) < 6)
    | exact (by decide : (0:ℕ) < 8)
    | exact (by decide : (0:ℕ) < 10)
    | exact (by decide : (0:ℕ) < 12)
    | exact (by decide : (0:ℕ) < 15)
    | exact (by decide : (0:ℕ) < 20)
    | (simp only [checkHeadingHierarchy, checkHasH1, checkSubheadings,
        checkParagraphStructure, checkHasFAQSection, checkHasDefinitions,
        checkContentLength, checkHasLists, checkHasStatistics,
        checkHasQuotableStatements, checkHasSpecificClaims, checkSentenceClarity,
        checkHasDatesAndTimelines, checkHasSchemaMarkup, checkMetaTitle,
        checkMetaDescription, checkOpenGraphTags, checkCanonicalUrl, checkPageSpeed,
        checkMobileViewport, checkHasAltText, checkHasAuthorInfo, checkHasPublishDate,
        checkHasAboutSection, checkHasSourceCitations, checkHasExternalLinks,
        checkAnswersQuestionUpfront, checkHasTableOfContents, checkHasSummarySection,
        checkNoPaywallDetected, checkContentAccessibility];
       split_ifs <;> omega)

theorem recLE_trans : ∀ a b c : Recommendation,
    recLE a b = true → recLE b c = true → recLE a c = true := by
  intro a b c; simp only [recLE, decide_eq_true_eq]; omega

theorem recLE_total : ∀ a b : Recommendation, (recLE a b || recLE b a) = true := by
  intro a b; simp only [recLE, Bool.or_eq_true, decide_eq_true_eq]; omega

/-- Stability of the sort, phrased per priority class: sorting does not
change the subsequence of recommendations of any one priority. -/
theorem mergeSort_filter_priority (l : List Recommendation) (p : Priority) :
    ((l.mergeSort recLE).filter fun r => r.priority = p)
      = l.filter fun r => r.priority = p := by
  have hperm : ((l.mergeSort recLE).filter fun r => r.priority = p).Perm
      (l.filter fun r => r.priority = p) :=
    (List.mergeSort_perm l recLE).filter _
  have hpw : (l.filter fun r => r.priority = p).Pairwise
      fun a b => recLE a b = true := by
    apply List.pairwise_of_forall_mem_list
    intro a ha b hb
    simp only [List.mem_filter, decide_eq_true_eq] at ha hb
    simp [recLE, ha.2, hb.2]
  have hsub : (l.filter fun r => r.priority = p).Sublist (l.mergeSort recLE) :=
    List.sublist_mergeSort recLE_trans recLE_total hpw (List.filter_sublist l)
  have hsub2 : (l.filter fun r => r.priority = p).Sublist
      ((l.mergeSort recLE).filter fun r => r.priority = p) := by
    have h2 := hsub.filter fun r => (decide (r.priority = p) : Bool)
    rw [List.filter_filter] at h2
    simpa [Bool.and_self] using h2
  exact (hsub2.eq_of_length hperm.length_eq.symm).symm

/-- A `recLE`-sorted recommendation list is the concatenation of its four
priority classes, each in its original order. -/
theorem sorted_eq_buckets (l : List Recommendation)
    (h : l.Pairwise fun a b => recLE a b = true) :
    l = (l.filter fun r => r.priority = Priority.critical)
      ++ (l.filter fun r => r.priority = Priority.high)
      ++ (l.filter fun r => r.priority = Priority.medium)
      ++ (l.filter fun r => r.priority = Priority.low) := by
  induction l with
  | nil => simp
  | cons a t ih =>
    have ha : ∀ b ∈ t, recLE a b = true := fun b hb => (List.pairwise_cons.1 h).1 b hb
    have ht := ih (List.pairwise_cons.1 h).2
    have empty_of : ∀ p : Priority, priorityOrder p < priorityOrder a.priority →
        (t.filter fun r => r.priority = p) = [] := by
      intro p hp
      rw [List.filter_eq_nil_iff]
      intro b hb hbp
      have hle := ha b hb
      simp only [recLE, decide_eq_true_eq] at hle hbp
      rw [hbp] at hle
      omega
    cases hap : a.priority with
    | critical =>
      simp only [List.filter_cons, hap, decide_eq_true_eq]
      norm_num
      conv_lhs => rw [ht]
      simp
    | high =>
      have h0 := empty_of .critical (by rw [hap]; decide)
      rw [h0] at ht; simp only [List.nil_append] at ht
      simp only [List.filter_cons, hap, decide_eq_true_eq]
      norm_num [h0]
      conv_lhs => rw [ht]
      simp
    | medium =>
      have h0 := empty_of .critical (by rw [hap]; decide)
      have h1 := empty_of .high (by rw [hap]; decide)
      rw [h0, h1] at ht; simp only [List.nil_append] at ht
      simp only [List.filter_cons, hap, decide_eq_true_eq]
      norm_num [h0, h1]
      conv_lhs => rw [ht]
      simp
    | low =>
      have h0 := empty_of .critical (by rw [hap]; decide)
      have h1 := empty_of .high (by rw [hap]; decide)
      have h2 := empty_of .medium (by rw [hap]; decide)
      rw [h0, h1, h2] at ht; simp only [List.nil_append] at ht
      simp only [List.filter_cons, hap, decide_eq_true_eq]
      norm_num [h0, h1, h2]
      conv_lhs => rw [ht]
      simp

/-- The sorted output characterized explicitly: critical recommendations
first (in input order), then high, medium, low. -/
theorem generateRecommendations_eq_buckets (checks : List Check) :
    generateRecommendations checks
      = ((recsOfChecks checks).filter fun r => r.priority = Priority.critical)
        ++ ((recsOfChecks checks).filter fun r => r.priority = Priority.high)
        ++ ((recsOfChecks checks).filter fun r => r.priority = Priority.medium)
        ++ ((recsOfChecks checks).filter fun r => r.priority = Priority.low) := by
  have hs := List.sorted_mergeSort recLE_trans recLE_total (recsOfChecks checks)
  have hb := sorted_eq_buckets _ hs
  rw [generateRecommendations, hb,
    mergeSort_filter_priority, mergeSort_filter_priority,
    mergeSort_filter_priority, mergeSort_filter_priority]

/-- The accumulation loop sums exactly the checks whose category is
`"contentStructure"` into that record field. -/
theorem foldl_contentStructure (l : List Check) (acc : Categories) :
    (l.foldl addToCategory acc).contentStructure.score
        = acc.contentStructure.score
          + ((l.filter fun c => c.category = "contentStructure").map Check.score).sum
      ∧ (l.foldl addToCategory acc).contentStructure.maxScore
        = acc.contentStructure.maxScore
          + ((l.filter fun c => c.category = "contentStructure").map Check.maxScore).sum := by
  induction l generalizing acc with
  | nil => simp
  | cons c t ih =>
    simp only [List.foldl_cons, List.filter_cons]
    obtain ⟨ih1, ih2⟩ := ih (addToCategory acc c)
    rw [ih1, ih2]
    by_cases h : c.category = "contentStructure"
    · constructor <;> simp [addToCategory, h] <;> omega
    · constructor <;>
        · simp only [addToCategory]
          split_ifs <;> simp_all

/-- The accumulation loop sums exactly the checks whose category is
`"citationReadiness"` into that record field. -/
theorem foldl_citationReadiness (l : List Check) (acc : Categories) :
    (l.foldl addToCategory acc).citationReadiness.score
        = acc.citationReadiness.score
          + ((l.filter fun c => c.category = "citationReadiness").map Check.score).sum
      ∧ (l.foldl addToCategory acc).citationReadiness.maxScore
        = acc.citationReadiness.maxScore
          + ((l.filter fun c => c.category = "citationReadiness").map Check.maxScore).sum := by
  induction l generalizing acc with
  | nil => simp
  | cons c t ih =>
    simp only [List.foldl_cons, List.filter_cons]
    obtain ⟨ih1, ih2⟩ := ih (addToCategory acc c)
    rw [ih1, ih2]
    by_cases h : c.category = "citationReadiness"
    · constructor <;> simp [addToCategory, h] <;> omega
    · constructor <;>
        · simp only [addToCategory]
          split_ifs <;> simp_all

/-- The accumulation loop sums exactly the checks whose category is
`"technicalSeo"` into that record field. -/
theorem foldl_technicalSeo (l : List Check) (acc : Categories) :
    (l.foldl addToCategory acc).technicalSeo.score
        = acc.technicalSeo.score
          + ((l.filter fun c => c.category = "technicalSeo").map Check.score).sum
      ∧ (l.foldl addToCategory acc).technicalSeo.maxScore
        = acc.technicalSeo.maxScore
          + ((l.filter fun c => c.category = "technicalSeo").map Check.maxScore).sum := by
  induction l generalizing acc with
  | nil => simp
  | cons c t ih =>
    simp only [List.foldl_cons, List.filter_cons]
    obtain ⟨ih1, ih2⟩ := ih (addToCategory acc c)
    rw [ih1, ih2]
    by_cases h : c.category = "technicalSeo"
    · constructor <;> simp [addToCategory, h] <;> omega
    · constructor <;>
        · simp only [addToCategory]
          split_ifs <;> simp_all

/-- The accumulation loop sums exactly the checks whose category is
`"credibilitySignals"` into that record field. -/
theorem foldl_credibilitySignals (l : List Check) (acc : Categories) :
    (l.foldl addToCategory acc).credibilitySignals.score
        = acc.credibilitySignals.score
          + ((l.filter fun c => c.category = "credibilitySignals").map Check.score).sum
      ∧ (l.foldl addToCategory acc).credibilitySignals.maxScore
        = acc.credibilitySignals.maxScore
          + ((l.filter fun c => c.category = "credibilitySignals").map Check.maxScore).sum := by
  induction l generalizing acc with
  | nil => simp
  | cons c t ih =>
    simp only [List.foldl_cons, List.filter_cons]
    obtain ⟨ih1, ih2⟩ := ih (addToCategory acc c)
    rw [ih1, ih2]
    by_cases h : c.category = "credibilitySignals"
    · constructor <;> simp [addToCategory, h] <;> omega
    · constructor <;>
        · simp only [addToCategory]
          split_ifs <;> simp_all

/-- The accumulation loop sums exactly the checks whose category is
`"aiSpecificFactors"` into that record field. -/
theorem foldl_aiSpecificFactors (l : List Check) (acc : Categories) :
    (l.foldl addToCategory acc).aiSpecificFactors.score
        = acc.aiSpecificFactors.score
          + ((l.filter fun c => c.category = "aiSpecificFactors").map Check.score).sum
      ∧ (l.foldl addToCategory acc).aiSpecificFactors.maxScore
        = acc.aiSpecificFactors.maxScore
          + ((l.filter fun c => c.category = "aiSpecificFactors").map Check.maxScore).sum := by
  induction l generalizing acc with
  | nil => simp
  | cons c t ih =>
    simp only [List.foldl_cons, List.filter_cons]
    obtain ⟨ih1, ih2⟩ := ih (addToCategory acc c)
    rw [ih1, ih2]
    by_cases h : c.category = "aiSpecificFactors"
    · constructor <;> simp [addToCategory, h] <;> omega
    · constructor <;>
        · simp only [addToCategory]
          split_ifs <;> simp_all

/-- A check with a category outside the five keys leaves the accumulator
unchanged (`if (categories[cat])`). -/
theorem addToCategory_unknown (acc : Categories) (c : Check)
    (h : c.category ∉ ["contentStructure", "citationReadiness", "technicalSeo",
      "credibilitySignals", "aiSpecificFactors"]) :
    addToCategory acc c = acc := by
  simp only [List.mem_cons, List.not_mem_nil, or_false, not_or] at h
  obtain ⟨h1, h2, h3, h4, h5⟩ := h
  simp [addToCategory, h1, h2, h3, h4, h5]

/-- Finalization keeps the sums and bounds the percentage. -/
theorem finalizeCategory_bounds (cs : CategoryScore) (h : cs.score ≤ cs.maxScore) :
    (finalizeCategory cs).score = cs.score
      ∧ (finalizeCategory cs).maxScore = cs.maxScore
      ∧ (finalizeCategory cs).percentage ≤ 100
      ∧ ((finalizeCategory cs).maxScore = 0 → (finalizeCategory cs).percentage = 0) := by
  unfold finalizeCategory
  refine ⟨rfl, rfl, ?_, ?_⟩
  · by_cases hm : 0 < cs.maxScore
    · simpa [hm] using jsRoundNat_le_100 h hm
    · simp [hm]
  · intro h0
    simp only at h0
    simp [h0]

theorem sum_map_score_le (l : List Check) (h : ∀ c ∈ l, c.score ≤ c.maxScore) :
    (l.map Check.score).sum ≤ (l.map Check.maxScore).sum :=
  List.sum_le_sum h

-- ============================================
-- Claim theorems
-- ============================================

/-- C6: `scoreToGrade` returns A when score ≥ 90, B when 80 ≤ score < 90,
C when 70 ≤ score < 80, D when 60 ≤ score < 70, and F otherwise; the
boundary values 90, 80, 70, 60 map to the higher grade. -/
theorem scoreToGrade_thresholds :
    (∀ s : ℤ, (scoreToGrade s = Grade.A ↔ 90 ≤ s)
      ∧ (scoreToGrade s = Grade.B ↔ 80 ≤ s ∧ s < 90)
      ∧ (scoreToGrade s = Grade.C ↔ 70 ≤ s ∧ s < 80)
      ∧ (scoreToGrade s = Grade.D ↔ 60 ≤ s ∧ s < 70)
      ∧ (scoreToGrade s = Grade.F ↔ s < 60))
    ∧ scoreToGrade 90 = Grade.A ∧ scoreToGrade 80 = Grade.B
    ∧ scoreToGrade 70 = Grade.C ∧ scoreToGrade 60 = Grade.D := by
  refine ⟨fun s => ?_, by decide, by decide, by decide, by decide⟩
  unfold scoreToGrade
  split_ifs <;> refine ⟨?_, ?_, ?_, ?_, ?_⟩ <;> simp_all <;> omega

/-- C2: the battery has no per-check error handling.  The statement
sequence of `runAllChecks` (modelled by `runChecksSeq` under exception
semantics) returns all 31 checks when none throws, but aborts with the
exception — returning no `Check` list at all, rather than a failed
score-0 `Check` — as soon as any one check throws. -/
theorem runAllChecks_aborts_on_check_exception :
    (runAllChecks emptyDoc emptyHtmlView emptyTextView 100).length = 31
    ∧ runChecksSeq exampleBatteryOutcomes
        = .ok (runAllChecks emptyDoc emptyHtmlView emptyTextView 100)
    ∧ runChecksSeq instrumentedOutcomes
        = .error "check threw on pathological input"
    ∧ ∀ l : List Check, runChecksSeq instrumentedOutcomes ≠ .ok l := by
  refine ⟨by decide, by rfl, by rfl, fun l h => ?_⟩
  rw [show runChecksSeq instrumentedOutcomes
    = .error "check threw on pathological input" from rfl] at h
  exact Except.noConfusion h

/-- C1 counterexample: with a configured credential and a failing
narrative-analysis call (network error), `analyzeWithClaude` returns the
fallback object with `aiReadinessScore` 50, which `analyzeUrl` blends
60/40 into the rule-based score 80 (giving 62, not 80) and stores in the
result — the narrative-analysis field is present, not absent. -/
theorem claude_failure_blends_fallback_counterexample :
    (aiBlendStep true (some "key") "Example Page" 80 (.fail "network error")).1 = 62
    ∧ (62 : ℤ) ≠ 80
    ∧ (aiBlendStep true (some "key") "Example Page" 80 (.fail "network error")).2
        = some (createFallbackAnalysis "Example Page"
            (some "AI analysis failed: network error"))
    ∧ (aiBlendStep true (some "key") "Example Page" 80 (.fail "network error")).2
        ≠ none := by
  refine ⟨by decide, by decide, by decide, ?_⟩
  intro h
  rw [show (aiBlendStep true (some "key") "Example Page" 80 (.fail "network error")).2
    = some (createFallbackAnalysis "Example Page"
        (some "AI analysis failed: network error")) from by decide] at h
  exact Option.noConfusion h

/-- C3 counterexample: on a document with no Open-Graph title and no
`<title>` element but a first `<h1>` reading "Hello World", the source
`extractTitle` returns the empty string — there is no `<h1>` fallback —
while the spec text (`extractTitleSpec`) requires "Hello World". -/
theorem extractTitle_h1_fallback_counterexample :
    extractTitle docWithOnlyH1 = ""
    ∧ extractTitleSpec docWithOnlyH1 = "Hello World"
    ∧ docWithOnlyH1.ogTitle = none
    ∧ docWithOnlyH1.titleText = none
    ∧ docWithOnlyH1.headings = [(1, "Hello World")]
    ∧ ("" : String) ≠ "Hello World" := by decide

/-- C4 counterexample: a page whose text contains the FAQ keyword but no
FAQPage schema passes the faq-section check yet is awarded 10 of 15, not
the full score 15. -/
theorem faq_section_full_score_counterexample :
    (checkHasFAQSection emptyDoc faqKeywordText).passed = true
    ∧ (checkHasFAQSection emptyDoc faqKeywordText).score = 10
    ∧ (checkHasFAQSection emptyDoc faqKeywordText).maxScore = 15
    ∧ (10 : ℕ) ≠ 15 := by decide

/-- C1 (amended): when the narrative-analysis credential is absent (or
`includeAI` is off), `analyzeUrl` keeps the rule-based score unblended and
leaves the narrative-analysis field undefined; but when the credential is
configured and the external call fails, `analyzeWithClaude` returns the
fallback object (`aiReadinessScore` 50), the 60/40 blend IS applied —
`round(50·0.6 + ruleScore·0.4)` — and the narrative-analysis field holds
the fallback object. -/
theorem claude_failure_degradation :
    ∀ (title : String) (ruleScore : ℤ) (outcome : CallOutcome) (k msg : String),
    (∀ apiKey : Option String,
      aiBlendStep false apiKey title ruleScore outcome = (ruleScore, none))
    ∧ aiBlendStep true none title ruleScore outcome = (ruleScore, none)
    ∧ aiBlendStep true (some "") title ruleScore outcome = (ruleScore, none)
    ∧ (k ≠ "" → aiBlendStep true (some k) title ruleScore (.fail msg)
        = (blendScores 50 ruleScore,
           some (createFallbackAnalysis title (some ("AI analysis failed: " ++ msg))))) := by
  intro title ruleScore outcome k msg
  refine ⟨fun apiKey => by simp [aiBlendStep],
    by simp [aiBlendStep, jsOrElse, jsTruthy],
    by simp [aiBlendStep, jsOrElse, jsTruthy], fun hk => ?_⟩
  simp [aiBlendStep, jsTruthy, jsOrElse, hk, analyzeWithClaude, createFallbackAnalysis]

/-- C1 witness: a concrete failing call with a configured credential. -/
theorem claude_failure_degradation_witness :
    aiBlendStep true (some "key") "Example Page" 80 (.fail "timeout")
      = (blendScores 50 80,
         some (createFallbackAnalysis "Example Page"
           (some "AI analysis failed: timeout"))) :=
  (claude_failure_degradation "Example Page" 80 (.fail "timeout") "key" "timeout").2.2.2
    (by decide)

/-- C3 (amended): the extracted page title is the trimmed Open-Graph
title when that is a non-empty string, else the trimmed `<title>` text
when non-empty, else the empty string — the `<h1>` element is never
consulted. -/
theorem extractTitle_precedence :
    ∀ doc : Doc,
    ((doc.ogTitle.bind fun c => c).getD "" ≠ "" →
      extractTitle doc = jsTrim ((doc.ogTitle.bind fun c => c).getD ""))
    ∧ ((doc.ogTitle.bind fun c => c).getD "" = "" → doc.titleText.getD "" ≠ "" →
      extractTitle doc = jsTrim (doc.titleText.getD ""))
    ∧ ((doc.ogTitle.bind fun c => c).getD "" = "" → doc.titleText.getD "" = "" →
      extractTitle doc = "") := by
  intro doc
  cases h1 : doc.ogTitle.bind fun c => c with
  | none =>
    cases h2 : doc.titleText with
    | none => simp [extractTitle, jsOrElse, h1, h2]; rfl
    | some t => by_cases ht : t = "" <;> simp [extractTitle, jsOrElse, h1, h2, ht] <;> rfl
  | some s =>
    cases h2 : doc.titleText with
    | none => by_cases hs : s = "" <;> simp [extractTitle, jsOrElse, h1, h2, hs] <;> rfl
    | some t =>
      by_cases hs : s = "" <;> by_cases ht : t = "" <;>
        simp [extractTitle, jsOrElse, h1, h2, hs, ht] <;> rfl

/-- C3 witness: Open-Graph title wins when present; `<title>` is used
when the Open-Graph title is absent (the `<h1>` is ignored in both). -/
theorem extractTitle_precedence_witness :
    extractTitle docWithOgTitle = "OG Title"
    ∧ extractTitle docWithTitleTag = "Title Tag" := by
  constructor
  · have h := (extractTitle_precedence docWithOgTitle).1 (by decide)
    rw [h]; decide
  · have h := (extractTitle_precedence docWithTitleTag).2.1 (by decide) (by decide)
    rw [h]; decide

/-- C4 (amended): the faq-section check passes exactly when an FAQ
keyword is present OR FAQPage schema is present OR at least 3
question–answer patterns occur; a passing check is awarded the full 15 of
maxScore 15 only when the FAQPage schema is present, and 10 of 15
otherwise; a failing check scores 0. -/
theorem checkHasFAQSection_spec :
    ∀ (doc : Doc) (text : TextView),
    ((checkHasFAQSection doc text).passed = true ↔
      (faqHeadingDetected text = true ∨ faqSchemaDetected doc = true
        ∨ text.qaPatternCount ≥ 3))
    ∧ (faqSchemaDetected doc = true → (checkHasFAQSection doc text).score = 15)
    ∧ ((checkHasFAQSection doc text).passed = true → faqSchemaDetected doc = false →
        (checkHasFAQSection doc text).score = 10)
    ∧ ((checkHasFAQSection doc text).passed = false →
        (checkHasFAQSection doc text).score = 0)
    ∧ (checkHasFAQSection doc text).maxScore = 15 := by
  intro doc text
  by_cases h1 : faqHeadingDetected text <;> by_cases h2 : faqSchemaDetected doc <;>
    by_cases h3 : text.qaPatternCount ≥ 3 <;>
      simp [checkHasFAQSection, h1, h2, h3]

/-- C4 witness: the keyword-only page passes with score 10. -/
theorem checkHasFAQSection_spec_witness :
    (checkHasFAQSection emptyDoc faqKeywordText).score = 10 :=
  (checkHasFAQSection_spec emptyDoc faqKeywordText).2.2.1 (by decide) (by decide)

/-- C9: `checkHasExternalLinks` is total (the embedding of its `try`/
`catch` maps URL-parse failures to `false`): an anchor whose `href` fails
URL parsing is treated as non-external and excluded from the count, and
the returned `Check` is well-formed. -/
theorem checkHasExternalLinks_safe :
    ∀ doc : Doc,
    (checkHasExternalLinks doc).id = "external-links"
    ∧ (checkHasExternalLinks doc).category = "credibilitySignals"
    ∧ (checkHasExternalLinks doc).maxScore = 8
    ∧ (checkHasExternalLinks doc).score ≤ (checkHasExternalLinks doc).maxScore
    ∧ ((checkHasExternalLinks doc).passed = true ↔ externalLinkCount doc ≥ 2)
    ∧ (∀ a : Anchor, doc.urlHostname (a.href.getD "") = none →
        isExternalAnchor doc a = false) := by
  intro doc
  refine ⟨rfl, rfl, rfl, ?_, ?_, ?_⟩
  · simp only [checkHasExternalLinks]
    split_ifs <;> omega
  · simp [checkHasExternalLinks]
  · intro a ha
    simp [isExternalAnchor, ha]

/-- C9 witness: the anchor with the malformed `href` is excluded while
the check still returns a well-formed value. -/
theorem checkHasExternalLinks_safe_witness :
    isExternalAnchor docWithBadHref
        { href := some "http//:broken url", text := "broken" } = false
    ∧ (checkHasExternalLinks docWithBadHref).score
        ≤ (checkHasExternalLinks docWithBadHref).maxScore :=
  ⟨(checkHasExternalLinks_safe docWithBadHref).2.2.2.2.2 _ (by decide),
   (checkHasExternalLinks_safe docWithBadHref).2.2.2.1⟩

/-- C5: `generateRecommendations` returns only recommendations derived
from failed checks, sorted by priority critical < high < medium < low,
stable within equal priority (the per-priority subsequences keep their
original order); failing checks with priorities
[medium, critical, high, critical] yield [critical, critical, high,
medium]. -/
theorem generateRecommendations_spec :
    (∀ checks : List Check,
      (∀ r ∈ generateRecommendations checks,
        ∃ c ∈ checks, c.passed = false ∧ checkToRecommendation c = some r)
      ∧ (generateRecommendations checks).Pairwise
          (fun a b => priorityOrder a.priority ≤ priorityOrder b.priority)
      ∧ (∀ p : Priority,
          (generateRecommendations checks).filter (fun r => r.priority = p)
            = (recsOfChecks checks).filter (fun r => r.priority = p)))
    ∧ (generateRecommendations examplePriorityChecks).map (fun r => r.priority)
        = [Priority.critical, Priority.critical, Priority.high, Priority.medium] := by
  refine ⟨fun checks => ⟨?_, ?_, ?_⟩, ?_⟩
  · intro r hr
    simp only [generateRecommendations] at hr
    have hmem : r ∈ recsOfChecks checks :=
      (List.mergeSort_perm (recsOfChecks checks) recLE).mem_iff.1 hr
    rw [recsOfChecks, List.mem_filterMap] at hmem
    obtain ⟨c, hc, hfc⟩ := hmem
    by_cases hp : c.passed
    · simp [hp] at hfc
    · refine ⟨c, hc, by simpa using hp, by simpa [hp] using hfc⟩
  · have hs := List.sorted_mergeSort recLE_trans recLE_total (recsOfChecks checks)
    exact hs.imp (fun hab => by simpa [recLE] using hab)
  · intro p
    exact mergeSort_filter_priority _ p
  · rw [generateRecommendations_eq_buckets]
    decide

/-- C5 witness: the critical schema-markup recommendation is derived from
a failed check of the example list, and the critical subsequence is
unreordered. -/
theorem generateRecommendations_spec_witness :
    (∃ c ∈ examplePriorityChecks, c.passed = false ∧
      checkToRecommendation c = some ⟨"schema-markup", "Technical SEO",
        Priority.critical, "Add Schema.org Structured Data"⟩)
    ∧ (generateRecommendations examplePriorityChecks).filter
        (fun r => r.priority = Priority.critical)
      = (recsOfChecks examplePriorityChecks).filter
        (fun r => r.priority = Priority.critical) := by
  constructor
  · apply (generateRecommendations_spec.1 examplePriorityChecks).1
    rw [generateRecommendations_eq_buckets]
    decide
  · exact (generateRecommendations_spec.1 examplePriorityChecks).2.2 Priority.critical

/-- C10: each of the five `CategoryScore.score` (resp. `maxScore`) values
equals the sum of the `score` (resp. `maxScore`) fields of the input
checks with that category; a check whose category string is not one of
the five keys contributes to no `CategoryScore`. -/
theorem calculateCategoryScores_sums :
    ∀ checks : List Check,
    ((calculateCategoryScores checks).contentStructure.score
        = ((checks.filter fun c => c.category = "contentStructure").map Check.score).sum
      ∧ (calculateCategoryScores checks).contentStructure.maxScore
        = ((checks.filter fun c => c.category = "contentStructure").map Check.maxScore).sum)
    ∧ ((calculateCategoryScores checks).citationReadiness.score
        = ((checks.filter fun c => c.category = "citationReadiness").map Check.score).sum
      ∧ (calculateCategoryScores checks).citationReadiness.maxScore
        = ((checks.filter fun c => c.category = "citationReadiness").map Check.maxScore).sum)
    ∧ ((calculateCategoryScores checks).technicalSeo.score
        = ((checks.filter fun c => c.category = "technicalSeo").map Check.score).sum
      ∧ (calculateCategoryScores checks).technicalSeo.maxScore
        = ((checks.filter fun c => c.category = "technicalSeo").map Check.maxScore).sum)
    ∧ ((calculateCategoryScores checks).credibilitySignals.score
        = ((checks.filter fun c => c.category = "credibilitySignals").map Check.score).sum
      ∧ (calculateCategoryScores checks).credibilitySignals.maxScore
        = ((checks.filter fun c => c.category = "credibilitySignals").map Check.maxScore).sum)
    ∧ ((calculateCategoryScores checks).aiSpecificFactors.score
        = ((checks.filter fun c => c.category = "aiSpecificFactors").map Check.score).sum
      ∧ (calculateCategoryScores checks).aiSpecificFactors.maxScore
        = ((checks.filter fun c => c.category = "aiSpecificFactors").map Check.maxScore).sum)
    ∧ (∀ c : Check, c.category ∉ ["contentStructure", "citationReadiness",
        "technicalSeo", "credibilitySignals", "aiSpecificFactors"] →
        ∀ l1 l2 : List Check,
          calculateCategoryScores (l1 ++ c :: l2) = calculateCategoryScores (l1 ++ l2)) := by
  intro checks
  refine ⟨⟨?_, ?_⟩, ⟨?_, ?_⟩, ⟨?_, ?_⟩, ⟨?_, ?_⟩, ⟨?_, ?_⟩, ?_⟩
  · have h := (foldl_contentStructure checks initCategories).1
    simpa [calculateCategoryScores, finalizeCategory, initCategories] using h
  · have h := (foldl_contentStructure checks initCategories).2
    simpa [calculateCategoryScores, finalizeCategory, initCategories] using h
  · have h := (foldl_citationReadiness checks initCategories).1
    simpa [calculateCategoryScores, finalizeCategory, initCategories] using h
  · have h := (foldl_citationReadiness checks initCategories).2
    simpa [calculateCategoryScores, finalizeCategory, initCategories] using h
  · have h := (foldl_technicalSeo checks initCategories).1
    simpa [calculateCategoryScores, finalizeCategory, initCategories] using h
  · have h := (foldl_technicalSeo checks initCategories).2
    simpa [calculateCategoryScores, finalizeCategory, initCategories] using h
  · have h := (foldl_credibilitySignals checks initCategories).1
    simpa [calculateCategoryScores, finalizeCategory, initCategories] using h
  · have h := (foldl_credibilitySignals checks initCategories).2
    simpa [calculateCategoryScores, finalizeCategory, initCategories] using h
  · have h := (foldl_aiSpecificFactors checks initCategories).1
    simpa [calculateCategoryScores, finalizeCategory, initCategories] using h
  · have h := (foldl_aiSpecificFactors checks initCategories).2
    simpa [calculateCategoryScores, finalizeCategory, initCategories] using h
  · intro c hc l1 l2
    simp only [calculateCategoryScores, List.foldl_append, List.foldl_cons,
      addToCategory_unknown _ _ hc]

/-- C10 witness: a check with an unknown category contributes nothing,
and the content-structure sum instance. -/
theorem calculateCategoryScores_sums_witness :
    calculateCategoryScores ([] ++ strayCheck :: []) = calculateCategoryScores ([] ++ [])
    ∧ (calculateCategoryScores [strayCheck]).contentStructure.score
      = (([strayCheck].filter fun c => c.category = "contentStructure").map Check.score).sum :=
  ⟨(calculateCategoryScores_sums []).2.2.2.2.2 strayCheck (by decide) [] [],
   (calculateCategoryScores_sums [strayCheck]).1.1⟩

/-- C8: with zero sentences or zero words, `calculateReadability` returns
the fixed sentinel (0, "N/A"); on all other texts it returns the Flesch
Reading Ease value rounded and clamped to [0, 100], with a grade label
other than "N/A". -/
theorem calculateReadability_spec :
    ∀ text : String,
    ((readSentences text).length = 0 ∨ (readWords text).length = 0 →
      calculateReadability text = (0, "N/A"))
    ∧ ((readSentences text).length ≠ 0 → (readWords text).length ≠ 0 →
      (calculateReadability text).1
          = (max 0 (min 100 (jsRoundInt
              (fleschNum (readSentences text).length (readWords text).length
                (syllableTotal (readWords text)))
              (fleschDen (readSentences text).length (readWords text).length)))).toNat
        ∧ (calculateReadability text).1 ≤ 100
        ∧ (calculateReadability text).2 ≠ "N/A") := by
  intro text
  constructor
  · intro h
    simp only [calculateReadability]
    rw [if_pos h]
  · intro h1 h2
    have hcond : ¬((readSentences text).length = 0 ∨ (readWords text).length = 0) := by
      tauto
    simp only [calculateReadability]
    rw [if_neg hcond]
    set z := jsRoundInt
      (fleschNum (readSentences text).length (readWords text).length
        (syllableTotal (readWords text)))
      (fleschDen (readSentences text).length (readWords text).length) with hz
    have hle : max 0 (min 100 z) ≤ 100 := max_le (by norm_num) (min_le_left _ _)
    refine ⟨rfl, by omega, ?_⟩
    split_ifs <;> simp

/-- C8 witness: the empty text hits the sentinel; a short simple text
stays within [0, 100]. -/
theorem calculateReadability_spec_witness :
    calculateReadability "" = (0, "N/A")
    ∧ (calculateReadability "The cat sat. The dog ran.").1 ≤ 100 :=
  ⟨(calculateReadability_spec "").1 (by decide),
   ((calculateReadability_spec "The cat sat. The dog ran.").2
     (by decide) (by decide)).2.1⟩

set_option maxRecDepth 8000

theorem finalizeCategory_score (cs : CategoryScore) :
    (finalizeCategory cs).score = cs.score := rfl

/-- C7: every Check of the battery satisfies 0 ≤ score ≤ maxScore with
maxScore > 0 (scores are ℕ, so 0 ≤ score holds by type), every
CategoryScore.percentage lies in [0, 100] (and is 0 when the category
maxScore is 0), the battery maxScore total is the constant 323, and the
overall rule-based score lies in [0, 100]. -/
theorem score_bounds_invariant :
    ∀ (doc : Doc) (html : HtmlView) (text : TextView) (lt : ℕ),
    (∀ c ∈ runAllChecks doc html text lt, c.score ≤ c.maxScore ∧ 0 < c.maxScore)
    ∧ (∀ cs ∈ categoryList (calculateCategoryScores (runAllChecks doc html text lt)),
        cs.percentage ≤ 100 ∧ (cs.maxScore = 0 → cs.percentage = 0))
    ∧ ((categoryList (calculateCategoryScores (runAllChecks doc html text lt))).map
        CategoryScore.maxScore).sum = 323
    ∧ overallRuleScore (calculateCategoryScores (runAllChecks doc html text lt)) ≤ 100 := by
  intro doc html text lt
  have hb : ∀ c ∈ runAllChecks doc html text lt, c.score ≤ c.maxScore ∧ 0 < c.maxScore :=
    fun c hc => batteryCheck_bounds doc html text lt c hc
  have hsum : ∀ key : String,
      (((runAllChecks doc html text lt).filter fun c => c.category = key).map
        Check.score).sum
      ≤ (((runAllChecks doc html text lt).filter fun c => c.category = key).map
        Check.maxScore).sum :=
    fun key => sum_map_score_le _
      (fun c hc => (hb c (List.mem_of_mem_filter hc)).1)
  have hcs1 := foldl_contentStructure (runAllChecks doc html text lt) initCategories
  have hcs2 := foldl_citationReadiness (runAllChecks doc html text lt) initCategories
  have hcs3 := foldl_technicalSeo (runAllChecks doc html text lt) initCategories
  have hcs4 := foldl_credibilitySignals (runAllChecks doc html text lt) initCategories
  have hcs5 := foldl_aiSpecificFactors (runAllChecks doc html text lt) initCategories
  have hb1 : ((runAllChecks doc html text lt).foldl addToCategory
      initCategories).contentStructure.score
      ≤ ((runAllChecks doc html text lt).foldl addToCategory
      initCategories).contentStructure.maxScore := by
    rw [hcs1.1, hcs1.2]; simpa [initCategories] using hsum "contentStructure"
  have hb2 : ((runAllChecks doc html text lt).foldl addToCategory
      initCategories).citationReadiness.score
      ≤ ((runAllChecks doc html text lt).foldl addToCategory
      initCategories).citationReadiness.maxScore := by
    rw [hcs2.1, hcs2.2]; simpa [initCategories] using hsum "citationReadiness"
  have hb3 : ((runAllChecks doc html text lt).foldl addToCategory
      initCategories).technicalSeo.score
      ≤ ((runAllChecks doc html text lt).foldl addToCategory
      initCategories).technicalSeo.maxScore := by
    rw [hcs3.1, hcs3.2]; simpa [initCategories] using hsum "technicalSeo"
  have hb4 : ((runAllChecks doc html text lt).foldl addToCategory
      initCategories).credibilitySignals.score
      ≤ ((runAllChecks doc html text lt).foldl addToCategory
      initCategories).credibilitySignals.maxScore := by
    rw [hcs4.1, hcs4.2]; simpa [initCategories] using hsum "credibilitySignals"
  have hb5 : ((runAllChecks doc html text lt).foldl addToCategory
      initCategories).aiSpecificFactors.score
      ≤ ((runAllChecks doc html text lt).foldl addToCategory
      initCategories).aiSpecificFactors.maxScore := by
    rw [hcs5.1, hcs5.2]; simpa [initCategories] using hsum "aiSpecificFactors"
  refine ⟨hb, ?_, by rfl, ?_⟩
  · intro cs hcs
    simp only [categoryList, calculateCategoryScores, List.mem_cons,
      List.not_mem_nil, or_false] at hcs
    rcases hcs with h | h | h | h | h
    all_goals subst h
    exacts [(finalizeCategory_bounds _ hb1).2.2, (finalizeCategory_bounds _ hb2).2.2,
      (finalizeCategory_bounds _ hb3).2.2, (finalizeCategory_bounds _ hb4).2.2,
      (finalizeCategory_bounds _ hb5).2.2]
  · have m1 : (((runAllChecks doc html text lt).filter fun c =>
        c.category = "contentStructure").map Check.maxScore).sum = 77 := by rfl
    have m2 : (((runAllChecks doc html text lt).filter fun c =>
        c.category = "citationReadiness").map Check.maxScore).sum = 58 := by rfl
    have m3 : (((runAllChecks doc html text lt).filter fun c =>
        c.category = "technicalSeo").map Check.maxScore).sum = 76 := by rfl
    have m4 : (((runAllChecks doc html text lt).filter fun c =>
        c.category = "credibilitySignals").map Check.maxScore).sum = 55 := by rfl
    have m5 : (((runAllChecks doc html text lt).filter fun c =>
        c.category = "aiSpecificFactors").map Check.maxScore).sum = 57 := by rfl
    have htot : ((categoryList (calculateCategoryScores
        (runAllChecks doc html text lt))).map CategoryScore.score).sum ≤ 323 := by
      simp only [categoryList, calculateCategoryScores, finalizeCategory_score,
        List.map_cons, List.map_nil, List.sum_cons, List.sum_nil]
      rw [hcs1.1, hcs2.1, hcs3.1, hcs4.1, hcs5.1]
      have q1 := hsum "contentStructure"
      have q2 := hsum "citationReadiness"
      have q3 := hsum "technicalSeo"
      have q4 := hsum "credibilitySignals"
      have q5 := hsum "aiSpecificFactors"
      rw [m1] at q1; rw [m2] at q2; rw [m3] at q3; rw [m4] at q4; rw [m5] at q5
      simp only [initCategories]
      omega
    have h323 : ((categoryList (calculateCategoryScores
        (runAllChecks doc html text lt))).map CategoryScore.maxScore).sum = 323 := by rfl
    unfold overallRuleScore
    rw [h323]
    exact jsRoundNat_le_100 htot (by norm_num)


/-- C7 witness: concrete instances of the bounds on the empty document. -/
theorem score_bounds_invariant_witness :
    ((checkHeadingHierarchy emptyDoc).score ≤ (checkHeadingHierarchy emptyDoc).maxScore)
    ∧ (calculateCategoryScores (runAllChecks emptyDoc emptyHtmlView emptyTextView
        100)).contentStructure.percentage ≤ 100 :=
  ⟨((score_bounds_invariant emptyDoc emptyHtmlView emptyTextView 100).1 _
      (by simp [runAllChecks])).1,
   ((score_bounds_invariant emptyDoc emptyHtmlView emptyTextView 100).2.1 _
      (by simp [categoryList])).1⟩

end AISearch